import Mathlib

/-!
Verification of the gemini-proxy forwarding gateway (src/main.py).

The single module implements a transparent proxy in front of an upstream
HTTP API.  We embed the request-handling pipeline shallowly: query
parameters and headers are association lists of strings, Python dict
construction and assignment are modelled by `dictSet` / `pyDict`
(first-occurrence key order, last value wins, assignment overwrites in
place), bodies are strings of bytes, and the two possible outbound calls
of one inbound request are fed by explicit `UpstreamOutcome` inputs.
-/

namespace GeminiProxy

/-- Python truthiness of an optional environment string: `None` and the
empty string are falsy. -/
def truthy : Option String → Bool
  | none => false
  | some s => !(s = "")

/-- Lower-case a string character by character, as used for the
case-insensitive header comparisons. -/
def lowerStr (s : String) : String := ⟨s.data.map Char.toLower⟩

/-- First-match lookup in an association list by exact key. -/
def lookupD : List (String × String) → String → Option String
  | [], _ => none
  | p :: t, k => if p.1 = k then some p.2 else lookupD t k

/-- Last-match lookup in an association list by exact key; this is the
value a Python dict built from the pairs would hold for the key. -/
def lookupLast : List (String × String) → String → Option String
  | [], _ => none
  | p :: t, k =>
      match lookupLast t k with
      | some v => some v
      | none => if p.1 = k then some p.2 else none

/-- Python dict assignment `d[k] = v` on an association list: overwrite
the entry in place when the key is present, append otherwise. -/
def dictSet : List (String × String) → String → String → List (String × String)
  | [], k, v => [(k, v)]
  | p :: t, k, v => if p.1 = k then (k, v) :: t else p :: dictSet t k v

/-- Python `dict(pairs)`: successive assignment starting from the empty
dict, so keys keep first-occurrence order and the last value wins. -/
def pyDict (l : List (String × String)) : List (String × String) :=
  l.foldl (fun d p => dictSet d p.1 p.2) []

/-- Number of entries of an association list carrying a given key. -/
def countKey (d : List (String × String)) (k : String) : Nat :=
  d.countP (fun p => decide (p.1 = k))

theorem lookupD_dictSet (d : List (String × String)) (k v k' : String) :
    lookupD (dictSet d k v) k' = if k' = k then some v else lookupD d k' := by
  induction d with
  | nil =>
      by_cases h : k' = k
      · simp [dictSet, lookupD, h]
      · have h2 : ¬k = k' := fun e => h e.symm
        simp [dictSet, lookupD, h, h2]
  | cons p t ih =>
      by_cases hp : p.1 = k
      · by_cases h : k' = k
        · simp [dictSet, hp, lookupD, h]
        · have h2 : ¬k = k' := fun e => h e.symm
          have h3 : ¬p.1 = k' := fun e => h2 (hp ▸ e)
          simp [dictSet, hp, lookupD, h, h2, h3]
      · by_cases h : k' = k
        · subst h
          simp [dictSet, hp, lookupD, ih]
        · simp [dictSet, hp, lookupD, ih, h]

theorem lookupD_foldl_dictSet (l : List (String × String)) :
    ∀ (d : List (String × String)) (k : String),
      lookupD (l.foldl (fun d p => dictSet d p.1 p.2) d) k =
        match lookupLast l k with
        | some v => some v
        | none => lookupD d k := by
  induction l with
  | nil => intro d k; simp [lookupLast]
  | cons p t ih =>
      intro d k
      simp only [List.foldl_cons, ih, lookupLast]
      cases lookupLast t k with
      | some v => simp
      | none =>
          simp only [lookupD_dictSet]
          by_cases h : k = p.1
          · simp [h]
          · have h2 : ¬p.1 = k := fun e => h e.symm
            simp [h, h2]

theorem lookupD_pyDict (l : List (String × String)) (k : String) :
    lookupD (pyDict l) k = lookupLast l k := by
  have h := lookupD_foldl_dictSet l [] k
  simp only [pyDict, h, lookupD]
  cases lookupLast l k <;> simp

theorem lookupLast_filter (P : String → Bool) (l : List (String × String)) (k : String) :
    lookupLast (l.filter (fun p => P p.1)) k =
      if P k then lookupLast l k else none := by
  induction l with
  | nil => simp [lookupLast]
  | cons p t ih =>
      by_cases hp : P p.1
      · by_cases hk : P k
        · simp [List.filter_cons, hp, lookupLast, ih, hk]
        · have he : ¬p.1 = k := fun e => hk (by rw [← e]; exact hp)
          simp [List.filter_cons, hp, lookupLast, ih, hk, he]
      · by_cases hk : P k
        · have he : ¬p.1 = k := fun e => hp (by rw [e]; exact hk)
          simp only [List.filter_cons, hp, Bool.false_eq_true, if_false, ih, hk, if_true,
            lookupLast, he]
          cases hl : lookupLast t k with
          | some v => simp
          | none => simp
        · simp [List.filter_cons, hp, ih, hk]

theorem mem_dictSet (d : List (String × String)) (k v : String) (q : String × String) :
    q ∈ dictSet d k v → q ∈ d ∨ q.1 = k := by
  induction d with
  | nil =>
      intro h
      simp only [dictSet, List.mem_singleton] at h
      right; rw [h]
  | cons p t ih =>
      intro h
      by_cases hp : p.1 = k
      · simp only [dictSet, hp, if_pos, List.mem_cons] at h
        rcases h with h | h
        · right; rw [h]
        · left; exact List.mem_cons_of_mem p h
      · simp only [dictSet, hp, if_false, List.mem_cons] at h
        rcases h with h | h
        · left; exact h ▸ List.mem_cons_self p t
        · rcases ih h with h2 | h2
          · left; exact List.mem_cons_of_mem p h2
          · right; exact h2

theorem mem_foldl_dictSet (l : List (String × String)) :
    ∀ (d : List (String × String)) (q : String × String),
      q ∈ l.foldl (fun d p => dictSet d p.1 p.2) d →
        q ∈ d ∨ q.1 ∈ l.map Prod.fst := by
  induction l with
  | nil => intro d q h; left; exact h
  | cons p t ih =>
      intro d q h
      rcases ih (dictSet d p.1 p.2) q h with h2 | h2
      · rcases mem_dictSet d p.1 p.2 q h2 with h3 | h3
        · left; exact h3
        · right; simp [h3]
      · right; simp [h2]

theorem mem_pyDict (l : List (String × String)) (q : String × String) :
    q ∈ pyDict l → q.1 ∈ l.map Prod.fst := by
  intro h
  rcases mem_foldl_dictSet l [] q h with h2 | h2
  · cases h2
  · exact h2

theorem keys_dictSet_subset (d : List (String × String)) (k v x : String) :
    x ∈ (dictSet d k v).map Prod.fst → x ∈ d.map Prod.fst ∨ x = k := by
  intro h
  rcases List.mem_map.mp h with ⟨q, hq, hx⟩
  rcases mem_dictSet d k v q hq with h2 | h2
  · left; exact hx ▸ List.mem_map_of_mem Prod.fst h2
  · right; rw [← hx, h2]

theorem keys_nodup_dictSet (d : List (String × String)) (k v : String)
    (h : (d.map Prod.fst).Nodup) : ((dictSet d k v).map Prod.fst).Nodup := by
  induction d with
  | nil => simp [dictSet]
  | cons p t ih =>
      by_cases hp : p.1 = k
      · simp only [dictSet, hp, if_pos, List.map_cons]
        simp only [List.map_cons, List.nodup_cons] at h
        exact List.nodup_cons.mpr ⟨hp ▸ h.1, h.2⟩
      · simp only [dictSet, hp, if_false, List.map_cons, List.nodup_cons]
        simp only [List.map_cons, List.nodup_cons] at h
        constructor
        · intro hmem
          rcases keys_dictSet_subset t k v p.1 hmem with h2 | h2
          · exact h.1 h2
          · exact hp h2
        · exact ih h.2

theorem keys_nodup_pyDict (l : List (String × String)) :
    ((pyDict l).map Prod.fst).Nodup := by
  have main : ∀ (l d : List (String × String)), (d.map Prod.fst).Nodup →
      ((l.foldl (fun d p => dictSet d p.1 p.2) d).map Prod.fst).Nodup := by
    intro l
    induction l with
    | nil => intro d h; exact h
    | cons p t ih => intro d h; exact ih (dictSet d p.1 p.2) (keys_nodup_dictSet d p.1 p.2 h)
  exact main l [] (by simp)

theorem mem_keys_dictSet_self (d : List (String × String)) (k v : String) :
    k ∈ (dictSet d k v).map Prod.fst := by
  induction d with
  | nil => simp [dictSet]
  | cons p t ih =>
      by_cases hp : p.1 = k
      · simp [dictSet, hp]
      · simp only [dictSet, hp, if_false, List.map_cons, List.mem_cons]
        right; exact ih

theorem countKey_eq_zero (d : List (String × String)) (k : String)
    (h : k ∉ d.map Prod.fst) : countKey d k = 0 := by
  induction d with
  | nil => rfl
  | cons p t ih =>
      simp only [List.map_cons, List.mem_cons] at h
      push_neg at h
      have hp : ¬p.1 = k := fun e => h.1 e.symm
      simp only [countKey, List.countP_cons, decide_eq_true_eq, hp, if_false]
      have := ih h.2
      simp only [countKey] at this
      simp [this, hp]

theorem countKey_eq_one (d : List (String × String)) (k : String)
    (hnd : (d.map Prod.fst).Nodup) (hmem : k ∈ d.map Prod.fst) : countKey d k = 1 := by
  induction d with
  | nil => cases hmem
  | cons p t ih =>
      simp only [List.map_cons, List.nodup_cons] at hnd
      simp only [List.map_cons, List.mem_cons] at hmem
      by_cases hp : p.1 = k
      · have hzero : countKey t k = 0 := countKey_eq_zero t k (hp ▸ hnd.1)
        simp only [countKey, List.countP_cons, decide_eq_true_eq, hp, if_pos]
        simp only [countKey] at hzero
        simp [hzero, hp]
      · have hmem2 : k ∈ t.map Prod.fst := by
          rcases hmem with h | h
          · exact absurd h.symm hp
          · exact h
        have := ih hnd.2 hmem2
        simp only [countKey, List.countP_cons, decide_eq_true_eq, hp, if_false] at this ⊢
        simp [this, hp]

theorem dictSet_of_not_mem (d : List (String × String)) (k v : String)
    (h : k ∉ d.map Prod.fst) : dictSet d k v = d ++ [(k, v)] := by
  induction d with
  | nil => rfl
  | cons p t ih =>
      simp only [List.map_cons, List.mem_cons] at h
      push_neg at h
      have hp : ¬p.1 = k := fun e => h.1 e.symm
      simp [dictSet, hp, ih h.2]

theorem pyDict_eq_self (l : List (String × String))
    (hnd : (l.map Prod.fst).Nodup) : pyDict l = l := by
  have main : ∀ (l d : List (String × String)), (l.map Prod.fst).Nodup →
      (∀ x, x ∈ l.map Prod.fst → x ∉ d.map Prod.fst) →
      l.foldl (fun d p => dictSet d p.1 p.2) d = d ++ l := by
    intro l
    induction l with
    | nil => intro d _ _; simp
    | cons p t ih =>
        intro d hnd hdisj
        simp only [List.map_cons, List.nodup_cons] at hnd
        have hp : p.1 ∉ d.map Prod.fst := hdisj p.1 (by simp)
        simp only [List.foldl_cons, dictSet_of_not_mem d p.1 p.2 hp]
        rw [ih (d ++ [(p.1, p.2)]) hnd.2]
        · simp
        · intro x hx
          simp only [List.map_append, List.mem_append, List.map_cons, List.mem_singleton]
          push_neg
          constructor
          · exact hdisj x (by simp [hx])
          · simp only [List.map_nil, List.mem_cons, List.not_mem_nil, or_false]
            intro e
            exact hnd.1 (e ▸ hx)
  have := main l [] hnd (by simp)
  simpa [pyDict] using this

theorem string_data_append (s t : String) : (s ++ t).data = s.data ++ t.data := rfl

/-- Python substring test `needle in hay`. -/
def strContains (hay needle : String) : Bool := decide (needle.data <:+: hay.data)

theorem strContains_append_right (a b n : String) (h : strContains b n = true) :
    strContains (a ++ b) n = true := by
  simp only [strContains, decide_eq_true_eq] at h ⊢
  obtain ⟨s, t, ht⟩ := h
  refine ⟨a.data ++ s, t, ?_⟩
  simp [string_data_append, ht]

/-- Process-wide configuration read from the environment at startup:
GEMINI_API_KEY and APP_TOKEN (lines 27-28 of src/main.py), each possibly
unset. -/
structure Config where
  apiKey : Option String
  appToken : Option String
deriving DecidableEq

/-- An inbound request at the proxied route /v1beta/\x7bpath\x7d: method, the
captured path suffix, the ordered query-parameter pairs, the header pairs,
the raw body and the client address.  urlBase stands for the scheme and
authority part of str(request.url). -/
structure InboundRequest where
  method : String
  urlBase : String
  path : String
  queryParams : List (String × String)
  headers : List (String × String)
  body : String
  clientHost : String
deriving DecidableEq

/-- A FastAPI HTTPException: status code and detail string (the detail is
what the client receives as the error body). -/
structure HTTPExc where
  status : Nat
  detail : String
deriving DecidableEq

/-- The outbound request handed to httpx: method, target url, query
params, headers and body (lines 139-145 of src/main.py). -/
structure OutboundRequest where
  method : String
  url : String
  params : List (String × String)
  headers : List (String × String)
  body : String
deriving DecidableEq

/-- What one outbound httpx call comes back with: a response, an
httpx.TimeoutException, or an httpx.RequestError with its message. -/
inductive UpstreamOutcome where
  | success (status : Nat) (headers : List (String × String)) (body : String)
  | timeout
  | requestError (cause : String)
deriving DecidableEq

/-- The successful client-facing response: status, header set handed to
the Response / StreamingResponse constructor, body bytes, media type, and
whether the streaming branch produced it. -/
structure ClientResponse where
  status : Nat
  headers : List (String × String)
  body : String
  mediaType : String
  streaming : Bool
deriving DecidableEq

/-- Result of the route handler: a relayed response or an HTTPException. -/
inductive ProxyResult where
  | response (r : ClientResponse)
  | error (e : HTTPExc)
deriving DecidableEq

def GOOGLE_API_BASE : String := "https://generativelanguage.googleapis.com"

/-- Starlette Headers.get: case-insensitive lookup, first match. -/
def headerGet : List (String × String) → String → Option String
  | [], _ => none
  | p :: t, name => if lowerStr p.1 = lowerStr name then some p.2 else headerGet t name

/-- headers.get(name, default) on an httpx/Starlette header set. -/
def headerGetD (hs : List (String × String)) (name dflt : String) : String :=
  (headerGet hs name).getD dflt

/-- verify_token (lines 57-66 of src/main.py): skip authentication when
APP_TOKEN is unset or empty (Python falsy), otherwise compare the
X-App-Token header against it and raise 401 on mismatch or absence. -/
def verify_token (appToken : Option String) (headers : List (String × String)) :
    Option HTTPExc :=
  match appToken with
  | none => none
  | some t =>
      if t = "" then none
      else if headerGet headers "X-App-Token" = some t then none
      else some ⟨401, "Unauthorized: Invalid or missing token"⟩

/-- health_check (lines 75-78 of src/main.py): the handler takes the
process configuration and the request headers as explicit inputs (they are
ambient in the source) and ignores both. -/
def health_check (_cfg : Config) (_headers : List (String × String)) :
    List (String × String) :=
  [("status", "ok"), ("service", "gemini-proxy")]

/-- Query parameters of the outbound request (lines 113-114 of
src/main.py): params = dict(request.query_params); params["key"] =
GEMINI_API_KEY. -/
def outboundParams (apiKey : String) (qp : List (String × String)) :
    List (String × String) :=
  dictSet (pyDict qp) "key" apiKey

/-- The fixed request-header exclusion set (line 117 of src/main.py). -/
def excluded_headers : List String :=
  ["host", "content-length", "transfer-encoding", "connection", "x-app-token"]

/-- Headers of the outbound request (lines 118-121 of src/main.py): dict
comprehension over the inbound headers, dropping the exclusion set by
lower-cased name. -/
def outboundHeaders (headers : List (String × String)) : List (String × String) :=
  pyDict (headers.filter (fun p => !excluded_headers.contains (lowerStr p.1)))

/-- The response-header exclusion set used by both relay branches
(lines 183 and 195 of src/main.py). -/
def resp_excluded : List String :=
  ["content-encoding", "content-length", "transfer-encoding"]

/-- Header set handed to the client response constructor (lines 181-184
and 193-196 of src/main.py). -/
def relayHeaders (hs : List (String × String)) : List (String × String) :=
  pyDict (hs.filter (fun p => !resp_excluded.contains (lowerStr p.1)))

/-- Rendering of the query part of str(request.url). -/
def queryString (qp : List (String × String)) : String :=
  if qp = [] then ""
  else "?" ++ String.intercalate "&" (qp.map (fun p => p.1 ++ "=" ++ p.2))

/-- str(request.url): scheme and authority, the route path, and the query
string. -/
def requestUrl (req : InboundRequest) : String :=
  req.urlBase ++ "/v1beta/" ++ req.path ++ queryString req.queryParams

/-- target_url (line 109 of src/main.py). -/
def targetUrl (path : String) : String := GOOGLE_API_BASE ++ "/v1beta/" ++ path

/-- The streaming test of line 167 of src/main.py: "text/event-stream" in
content_type or "stream" in str(request.url). -/
def streamCheck (contentType url : String) : Bool :=
  strContains contentType "text/event-stream" || strContains url "stream"

/-- Body of the try block of proxy_gemini_api (lines 135-198 of
src/main.py), entered with a truthy GEMINI_API_KEY k.  up1 answers the
first client.request call; up2 answers the client.stream re-request made
when the streaming test fires.  Returns the outbound calls that were
issued together with the client-facing result. -/
def proxyCore (k : String) (req : InboundRequest) (up1 up2 : UpstreamOutcome) :
    List OutboundRequest × ProxyResult :=
  let out : OutboundRequest :=
    { method := req.method
      url := targetUrl req.path
      params := outboundParams k req.queryParams
      headers := outboundHeaders req.headers
      body := req.body }
  match up1 with
  | .timeout => ([out], .error ⟨504, "Gateway timeout: Gemini API did not respond in time"⟩)
  | .requestError c => ([out], .error ⟨502, "Bad gateway: " ++ c⟩)
  | .success st hs b =>
      let contentType := headerGetD hs "content-type" ""
      if streamCheck contentType (requestUrl req) then
        match up2 with
        | .timeout =>
            ([out, out], .error ⟨504, "Gateway timeout: Gemini API did not respond in time"⟩)
        | .requestError c => ([out, out], .error ⟨502, "Bad gateway: " ++ c⟩)
        | .success st2 hs2 b2 =>
            ([out, out], .response ⟨st2, relayHeaders hs2, b2, contentType, true⟩)
      else
        ([out], .response ⟨st, relayHeaders hs, b, contentType, false⟩)

/-- proxy_gemini_api (lines 81-205 of src/main.py): verify the inbound
token, fail 500 when GEMINI_API_KEY is unset or empty, then forward. -/
def proxy_gemini_api (cfg : Config) (req : InboundRequest)
    (up1 up2 : UpstreamOutcome) : List OutboundRequest × ProxyResult :=
  match verify_token cfg.appToken req.headers with
  | some e => ([], .error e)
  | none =>
      match cfg.apiKey with
      | none => ([], .error ⟨500, "Server configuration error: GEMINI_API_KEY not set"⟩)
      | some k =>
          if k = "" then
            ([], .error ⟨500, "Server configuration error: GEMINI_API_KEY not set"⟩)
          else proxyCore k req up1 up2

/-- The internal failure taxonomy of the handler, with the data each kind
carries. -/
inductive InternalFailure where
  | authFailure
  | missingUpstreamKey
  | upstreamTimeout
  | upstreamUnreachable (cause : String)
deriving DecidableEq

/-- Client-facing status code and detail for each internal failure kind,
read off the raise sites of src/main.py (lines 66, 103-106, 202, 205). -/
def translateFailure : InternalFailure → Nat × String
  | .authFailure => (401, "Unauthorized: Invalid or missing token")
  | .missingUpstreamKey => (500, "Server configuration error: GEMINI_API_KEY not set")
  | .upstreamTimeout => (504, "Gateway timeout: Gemini API did not respond in time")
  | .upstreamUnreachable c => (502, "Bad gateway: " ++ c)

theorem relayHeaders_all (hs : List (String × String)) :
    (relayHeaders hs).all (fun p => !resp_excluded.contains (lowerStr p.1)) = true := by
  rw [List.all_eq_true]
  intro p hp
  have h1 := mem_pyDict _ p hp
  rcases List.mem_map.mp h1 with ⟨q, hq, hx⟩
  have h2 := (List.mem_filter.mp hq).2
  rw [← hx]
  exact h2

theorem proxyCore_snd_key_independent (k1 k2 : String) (req : InboundRequest)
    (up1 up2 : UpstreamOutcome) :
    (proxyCore k1 req up1 up2).2 = (proxyCore k2 req up1 up2).2 := by
  cases up1 with
  | timeout => rfl
  | requestError c => rfl
  | success st hs b =>
      simp only [proxyCore]
      by_cases hsc : streamCheck (headerGetD hs "content-type" "") (requestUrl req)
      · cases up2 <;> simp [hsc]
      · simp [hsc]

/-- C1 (counterexample): the claim says every inbound name/value pair is
copied to the outbound query; with the duplicate inbound pairs a=1 and
a=2, dict(request.query_params) keeps only the last value, so the pair
(a,1) is absent from the outbound parameters. -/
theorem paramCopyDropsDuplicates :
    ("a", "1") ∈ [("a", "1"), ("a", "2")] ∧
    ("a", "1") ∉ outboundParams "K" [("a", "1"), ("a", "2")] := by decide

/-- C1 (amended): for every name other than the credential name the
outbound value is the last inbound value for that name, and the credential
parameter key is present exactly once, bound to the server-held key,
overwriting any client-supplied value. -/
theorem paramInjection (apiKey : String) (qp : List (String × String)) :
    lookupD (outboundParams apiKey qp) "key" = some apiKey ∧
    countKey (outboundParams apiKey qp) "key" = 1 ∧
    ∀ k, k ≠ "key" → lookupD (outboundParams apiKey qp) k = lookupLast qp k := by
  refine ⟨?_, ?_, ?_⟩
  · simp [outboundParams, lookupD_dictSet]
  · exact countKey_eq_one _ _
      (keys_nodup_dictSet _ _ _ (keys_nodup_pyDict qp))
      (mem_keys_dictSet_self _ _ _)
  · intro k hk
    simp [outboundParams, lookupD_dictSet, hk, lookupD_pyDict]

/-- C1 (witness): spot check of the amended claim on a request that tries
to smuggle its own key parameter. -/
theorem paramInjection_spot :
    lookupD (outboundParams "K" [("x", "1"), ("key", "evil")]) "x" =
      lookupLast [("x", "1"), ("key", "evil")] "x" :=
  (paramInjection "K" [("x", "1"), ("key", "evil")]).2.2 "x" (by decide)

/-- C2: with no (or an empty, hence Python-falsy) APP_TOKEN the verifier
always authorizes; with a configured token it authorizes exactly when the
X-App-Token header equals the token, and any other value or its absence
yields the 401 Unauthorized exception. -/
theorem authVerdict (appToken : Option String) (headers : List (String × String)) :
    (truthy appToken = false → verify_token appToken headers = none) ∧
    (∀ t, appToken = some t → t ≠ "" →
      ((verify_token appToken headers = none ↔
          headerGet headers "X-App-Token" = some t) ∧
        (headerGet headers "X-App-Token" ≠ some t →
          verify_token appToken headers =
            some ⟨401, "Unauthorized: Invalid or missing token"⟩))) := by
  constructor
  · intro h
    cases appToken with
    | none => rfl
    | some t =>
        have ht : t = "" := by
          by_contra hc
          simp [truthy, hc] at h
        simp [verify_token, ht]
  · intro t ht hne
    subst ht
    refine ⟨⟨?_, ?_⟩, ?_⟩
    · intro h
      by_contra hc
      simp [verify_token, hne, hc] at h
    · intro h
      simp [verify_token, hne, h]
    · intro h
      simp [verify_token, hne, h]

/-- C2 (witness): a configured token with the exactly matching header
value authorizes. -/
theorem authVerdict_spot :
    verify_token (some "sec") [("X-App-Token", "sec")] = none :=
  ((authVerdict (some "sec") [("X-App-Token", "sec")]).2 "sec" rfl
    (by decide)).1.mpr (by decide)

/-- C3: the client-facing result of the handler does not depend on the
upstream credential at all (for any two configured keys and identical
remaining inputs the results coincide), so neither a success body nor any
error-detail string can carry the key: the key flows only into the
outbound request list. -/
theorem apiKeyNonInterference (k1 k2 : String) (tok : Option String)
    (req : InboundRequest) (up1 up2 : UpstreamOutcome)
    (h1 : k1 ≠ "") (h2 : k2 ≠ "") :
    (proxy_gemini_api ⟨some k1, tok⟩ req up1 up2).2 =
      (proxy_gemini_api ⟨some k2, tok⟩ req up1 up2).2 := by
  cases hv : verify_token tok req.headers with
  | some e => simp [proxy_gemini_api, hv]
  | none =>
      simp [proxy_gemini_api, hv, h1, h2]
      exact proxyCore_snd_key_independent k1 k2 req up1 up2

/-- C3 (witness): with two different keys and the same upstream data the
client sees identical results. -/
theorem apiKeyNonInterference_spot :
    (proxy_gemini_api ⟨some "K1", none⟩ ⟨"POST", "x", "gen", [], [], "", "c"⟩
        (.success 200 [("content-type", "application/json")] "body") .timeout).2 =
      (proxy_gemini_api ⟨some "K2", none⟩ ⟨"POST", "x", "gen", [], [], "", "c"⟩
        (.success 200 [("content-type", "application/json")] "body") .timeout).2 :=
  apiKeyNonInterference "K1" "K2" none ⟨"POST", "x", "gen", [], [], "", "c"⟩
    (.success 200 [("content-type", "application/json")] "body") .timeout
    (by decide) (by decide)

/-- C4 (code evaluation): on a request whose path contains the stream
marker the handler issues two outbound requests to the upstream: a
buffered probe and a second streamed call.  The claim that exactly one
outbound request is issued per inbound request fails on this input. -/
theorem doubleRequestOnStream :
    (proxy_gemini_api ⟨some "K", none⟩
        ⟨"POST", "x", "models/m:streamGenerateContent", [], [], "", "c"⟩
        (.success 200 [("content-type", "application/json")] "ok")
        (.success 200 [("content-type", "application/json")] "ok")).1.length = 2 := by
  decide

/-- C5: under the header data model of the spec (a mapping, so no
duplicate names) the outbound header list is exactly the inbound list with
the fixed exclusion set removed by lower-cased name, and in particular no
entry whose lower-cased name is the inbound token header survives. -/
theorem headerTranslation (headers : List (String × String))
    (hnd : (headers.map Prod.fst).Nodup) :
    outboundHeaders headers =
      headers.filter (fun p => !excluded_headers.contains (lowerStr p.1)) ∧
    ∀ q ∈ outboundHeaders headers, lowerStr q.1 ≠ "x-app-token" := by
  constructor
  · rw [outboundHeaders]
    refine pyDict_eq_self _ ?_
    exact List.Nodup.sublist (List.Sublist.map Prod.fst (List.filter_sublist headers)) hnd
  · intro q hq he
    have h1 := mem_pyDict _ q hq
    rcases List.mem_map.mp h1 with ⟨p, hp, hx⟩
    have h2 := (List.mem_filter.mp hp).2
    rw [hx, he] at h2
    exact absurd h2 (by decide)

/-- C5 (witness): the exclusion set is dropped and the rest survives on a
concrete header list. -/
theorem headerTranslation_spot :
    outboundHeaders [("host", "h"), ("x-app-token", "t"), ("accept", "a")] =
      [("host", "h"), ("x-app-token", "t"), ("accept", "a")].filter
        (fun p => !excluded_headers.contains (lowerStr p.1)) :=
  (headerTranslation [("host", "h"), ("x-app-token", "t"), ("accept", "a")]
    (by decide)).1

/-- C6: whenever the handler relays a response (buffered or streaming),
every header in the relayed set has a lower-cased name outside
\x7bcontent-encoding, content-length, transfer-encoding\x7d. -/
theorem relayedFramingHeadersAbsent (cfg : Config) (req : InboundRequest)
    (up1 up2 : UpstreamOutcome) (r : ClientResponse)
    (h : (proxy_gemini_api cfg req up1 up2).2 = .response r) :
    r.headers.all (fun p => !resp_excluded.contains (lowerStr p.1)) = true := by
  cases hv : verify_token cfg.appToken req.headers with
  | some e => simp [proxy_gemini_api, hv] at h
  | none =>
      cases hk : cfg.apiKey with
      | none => simp [proxy_gemini_api, hv, hk] at h
      | some k =>
          by_cases hke : k = ""
          · simp [proxy_gemini_api, hv, hk, hke] at h
          · simp only [proxy_gemini_api, hv, hk, hke, if_false] at h
            cases up1 with
            | timeout => simp [proxyCore] at h
            | requestError c => simp [proxyCore] at h
            | success st hs b =>
                simp only [proxyCore] at h
                by_cases hsc :
                    streamCheck (headerGetD hs "content-type" "") (requestUrl req)
                · simp only [hsc, if_true] at h
                  cases up2 with
                  | timeout => simp at h
                  | requestError c => simp at h
                  | success st2 hs2 b2 =>
                      simp only [ProxyResult.response.injEq] at h
                      rw [← h]
                      exact relayHeaders_all hs2
                · simp only [hsc, if_false, Bool.false_eq_true,
                    ProxyResult.response.injEq] at h
                  rw [← h]
                  exact relayHeaders_all hs

/-- C6 (witness): on a buffered relay whose upstream response carried
content-length, the relayed set carries no excluded framing header. -/
theorem relayedFramingHeadersAbsent_spot :
    ([(("content-type" : String), ("application/json" : String))].all
      (fun p => !resp_excluded.contains (lowerStr p.1))) = true :=
  relayedFramingHeadersAbsent ⟨some "K", none⟩ ⟨"POST", "x", "gen", [], [], "", "c"⟩
    (.success 200 [("content-type", "application/json"), ("content-length", "5")] "hello")
    .timeout
    ⟨200, [("content-type", "application/json")], "hello", "application/json", false⟩
    (by decide)

/-- C7: on the buffered branch the relayed response carries the upstream
status code unchanged (any value, 4xx/5xx included) and the upstream body
byte-for-byte. -/
theorem bufferedPassthrough (k : String) (tok : Option String) (req : InboundRequest)
    (up2 : UpstreamOutcome) (st : Nat) (hs : List (String × String)) (b : String)
    (hk : k ≠ "") (hv : verify_token tok req.headers = none)
    (hns : streamCheck (headerGetD hs "content-type" "") (requestUrl req) = false) :
    (proxy_gemini_api ⟨some k, tok⟩ req (.success st hs b) up2).2 =
      .response ⟨st, relayHeaders hs, b, headerGetD hs "content-type" "", false⟩ := by
  simp [proxy_gemini_api, hv, hk, proxyCore, hns]

/-- C7 (witness): an upstream 418 with body hi is relayed with status 418
and body hi. -/
theorem bufferedPassthrough_spot :
    (proxy_gemini_api ⟨some "K", none⟩ ⟨"GET", "x", "gen", [], [], "", "c"⟩
        (.success 418 [("content-type", "text/plain"), ("content-length", "2")] "hi")
        .timeout).2 =
      .response ⟨418,
        relayHeaders [("content-type", "text/plain"), ("content-length", "2")], "hi",
        headerGetD [("content-type", "text/plain"), ("content-length", "2")]
          "content-type" "", false⟩ :=
  bufferedPassthrough "K" none ⟨"GET", "x", "gen", [], [], "", "c"⟩ .timeout 418
    [("content-type", "text/plain"), ("content-length", "2")] "hi"
    (by decide) (by decide) (by decide)

/-- C8: the failure translation is total and exclusive: a falsy upstream
key yields the 500 configuration error, a timeout of the outbound call
yields the fixed 504 message, a transport failure yields 502 carrying the
cause, and over the internal failure taxonomy each of the statuses 500,
504 and 502 is produced by exactly the corresponding kind. -/
theorem failureTranslationTotal (tok : Option String) (req : InboundRequest)
    (up1 up2 : UpstreamOutcome) (k c : String)
    (hv : verify_token tok req.headers = none) (hk : k ≠ "") :
    (proxy_gemini_api ⟨none, tok⟩ req up1 up2).2 =
        .error ⟨500, "Server configuration error: GEMINI_API_KEY not set"⟩ ∧
    (proxy_gemini_api ⟨some k, tok⟩ req .timeout up2).2 =
        .error ⟨504, "Gateway timeout: Gemini API did not respond in time"⟩ ∧
    (proxy_gemini_api ⟨some k, tok⟩ req (.requestError c) up2).2 =
        .error ⟨502, "Bad gateway: " ++ c⟩ ∧
    (∀ f, (translateFailure f).1 = 500 ↔ f = .missingUpstreamKey) ∧
    (∀ f, (translateFailure f).1 = 504 ↔ f = .upstreamTimeout) ∧
    (∀ f, (translateFailure f).1 = 502 ↔ ∃ d, f = .upstreamUnreachable d) := by
  refine ⟨?_, ?_, ?_, ?_, ?_, ?_⟩
  · simp [proxy_gemini_api, hv]
  · simp [proxy_gemini_api, hv, hk, proxyCore]
  · simp [proxy_gemini_api, hv, hk, proxyCore]
  · intro f; cases f <;> simp [translateFailure]
  · intro f; cases f <;> simp [translateFailure]
  · intro f; cases f <;> simp [translateFailure]

/-- C8 (witness): a timeout on the outbound call is translated to the 504
gateway-timeout error. -/
theorem failureTranslationTotal_spot :
    (proxy_gemini_api ⟨some "K", none⟩ ⟨"GET", "x", "p", [], [], "", "c"⟩
        .timeout .timeout).2 =
      .error ⟨504, "Gateway timeout: Gemini API did not respond in time"⟩ :=
  (failureTranslationTotal none ⟨"GET", "x", "p", [], [], "", "c"⟩ .timeout .timeout
    "K" "e" (by decide) (by decide)).2.1

/-- C9 (counterexample): the liveness payload is not the bare
status-only object: it also carries the service field. -/
theorem healthPayloadNotMinimal :
    health_check ⟨none, none⟩ [] ≠ [("status", "ok")] := by decide

/-- C9 (amended): the liveness endpoint performs no authentication and
returns the same fixed payload, with fields status=ok and
service=gemini-proxy, for every configuration and every header set. -/
theorem healthEndpointFixed (cfg cfg2 : Config) (hs hs2 : List (String × String)) :
    health_check cfg hs = [("status", "ok"), ("service", "gemini-proxy")] ∧
    health_check cfg hs = health_check cfg2 hs2 :=
  ⟨rfl, rfl⟩

/-- C10: the streaming branch fires (two outbound calls) exactly when the
first response's content type contains text/event-stream or the string
stream occurs anywhere in the full inbound URL, and in particular a
query string containing stream selects streaming regardless of the
path. -/
theorem streamingSelection (k : String) (tok : Option String) (req : InboundRequest)
    (up2 : UpstreamOutcome) (st : Nat) (hs : List (String × String)) (b : String)
    (hk : k ≠ "") (hv : verify_token tok req.headers = none) :
    ((proxy_gemini_api ⟨some k, tok⟩ req (.success st hs b) up2).1.length = 2 ↔
      (strContains (headerGetD hs "content-type" "") "text/event-stream" = true ∨
        strContains (requestUrl req) "stream" = true)) ∧
    (strContains (queryString req.queryParams) "stream" = true →
      (proxy_gemini_api ⟨some k, tok⟩ req (.success st hs b) up2).1.length = 2) := by
  have hmain : (proxy_gemini_api ⟨some k, tok⟩ req (.success st hs b) up2).1.length = 2 ↔
      streamCheck (headerGetD hs "content-type" "") (requestUrl req) = true := by
    simp only [proxy_gemini_api, hv, hk, if_false]
    by_cases hsc : streamCheck (headerGetD hs "content-type" "") (requestUrl req)
    · simp only [proxyCore, hsc, if_true]
      cases up2 <;> simp [hsc]
    · simp [proxyCore, hsc]
  constructor
  · rw [hmain, streamCheck, Bool.or_eq_true]
  · intro hq
    rw [hmain, streamCheck, Bool.or_eq_true]
    right
    exact strContains_append_right (req.urlBase ++ "/v1beta/" ++ req.path)
      (queryString req.queryParams) "stream" hq

/-- C10 (witness): a request whose path has no stream marker but whose
query string contains stream is relayed through the streaming branch. -/
theorem streamingSelection_spot :
    (proxy_gemini_api ⟨some "K", none⟩
        ⟨"POST", "x", "gen", [("alt", "stream")], [], "", "c"⟩
        (.success 200 [("content-type", "application/json")] "ok")
        (.success 200 [("content-type", "application/json")] "ok")).1.length = 2 :=
  (streamingSelection "K" none ⟨"POST", "x", "gen", [("alt", "stream")], [], "", "c"⟩
    (.success 200 [("content-type", "application/json")] "ok") 200
    [("content-type", "application/json")] "ok" (by decide) (by decide)).2 (by decide)
end GeminiProxy
